import Mathlib

/-!
Verification of the Bluetooth/PipeWire device reconciliation core of
`blue_pulse.py` (PostX repository, `usr/share/blue_pulse.py`).

Python strings are embedded as `List Char`; each Python helper that shells
out to `pactl` or D-Bus is embedded as a pure function over an explicit
record of the external results it would observe.  Line numbers in the doc
comments refer to `blue_pulse.py`.
-/

namespace BluePulse

/-- Outcome of one external `subprocess.run(['pactl', ...], check=True)`
invocation: captured stdout of a zero-exit run, or the stderr carried by the
`subprocess.CalledProcessError` raised on a non-zero exit. -/
inductive CmdResult where
  | ok (stdout : List Char)
  | err (stderr : List Char)
deriving DecidableEq

/-- Embeds `run_pactl_command` (lines 31-40): stdout on success; on
`CalledProcessError` the exception is caught, logged and swallowed and the
empty string is returned. -/
def run_pactl_command : CmdResult → List Char
  | .ok out => out
  | .err _ => []

/-- Embeds Python `str.strip()` on the characters of a line (ASCII whitespace). -/
def pyStrip (cs : List Char) : List Char :=
  ((cs.dropWhile Char.isWhitespace).reverse.dropWhile Char.isWhitespace).reverse

/-- Embeds Python `str.lower()` (per-character lowercasing). -/
def pyLower (cs : List Char) : List Char := cs.map Char.toLower

/-- Embeds `address.replace(":", "_")` (a single-character pattern, so it is a
per-character map). -/
def pyReplaceColon (cs : List Char) : List Char :=
  cs.map (fun c => if c = ':' then '_' else c)

/-- Embeds Python `str.splitlines()` for newline-terminated text: splits on
`'\n'` and drops a final empty piece, exactly like `splitlines` on the
`pactl` output this program parses. -/
def pySplitlines : List Char → List (List Char)
  | [] => []
  | c :: cs =>
    if c = '\n' then [] :: pySplitlines cs
    else
      match pySplitlines cs with
      | [] => [[c]]
      | g :: gs => (c :: g) :: gs

/-- Embeds Python `line.split(sep)` for a single-character separator. -/
def pySplitOnChar (sep : Char) : List Char → List (List Char)
  | [] => [[]]
  | c :: cs =>
    if c = sep then [] :: pySplitOnChar sep cs
    else
      match pySplitOnChar sep cs with
      | [] => [[c]]
      | g :: gs => (c :: g) :: gs

/-- One record built by `list_sinks`/`list_sources`: the Python code fills a
dict that may hold `index`, `name` and `description` keys. -/
structure DevRec where
  index : Option (List Char) := none
  name : Option (List Char) := none
  description : Option (List Char) := none
deriving DecidableEq

/-- Python dict truthiness of the record under construction (`if sink:`). -/
def DevRec.nonEmpty (r : DevRec) : Bool :=
  r.index.isSome || r.name.isSome || r.description.isSome

/-- Test `line.startswith(hdr)` after stripping, for a section header such as
`Sink #` or `Source #`. -/
def isHeaderLine (hdr t : List Char) : Bool := List.isPrefixOf hdr t

/-- Test `line.startswith('Name:')`. -/
def isNameLine (t : List Char) : Bool := List.isPrefixOf "Name:".data t

/-- Test `line.startswith('Description:')`. -/
def isDescLine (t : List Char) : Bool := List.isPrefixOf "Description:".data t

/-- Embeds `line.split('#')[1].strip()` of a header line (the header contains
a `#`, so index 1 exists; `getD` is only ever used under that guard). -/
def headerIdx (t : List Char) : List Char := pyStrip ((pySplitOnChar '#' t).getD 1 [])

/-- Embeds `line.split(':', 1)[1].strip()` for a line starting `Name:` (the
first colon is the one ending `Name:`, so this is the text after position 5). -/
def nameVal (t : List Char) : List Char := pyStrip (t.drop 5)

/-- Embeds `line.split(':', 1)[1].strip()` for a line starting `Description:`. -/
def descVal (t : List Char) : List Char := pyStrip (t.drop 12)

/-- The `for line in output.splitlines()` loop shared verbatim by `list_sinks`
(lines 68-87) and `list_sources` (lines 89-108); the two Python functions are
textually identical up to the header literal `hdr` and which list they fill.
`cur` is the record dict under construction. -/
def devLoop (hdr : List Char) (cur : DevRec) : List (List Char) → List DevRec
  | [] => if cur.nonEmpty then [cur] else []
  | l :: ls =>
    if isHeaderLine hdr (pyStrip l) then
      if cur.nonEmpty then
        cur :: devLoop hdr { index := some (headerIdx (pyStrip l)) } ls
      else devLoop hdr { index := some (headerIdx (pyStrip l)) } ls
    else if isNameLine (pyStrip l) then
      devLoop hdr { cur with name := some (nameVal (pyStrip l)) } ls
    else if isDescLine (pyStrip l) then
      devLoop hdr { cur with description := some (descVal (pyStrip l)) } ls
    else devLoop hdr cur ls

/-- Header literal of `list_sinks`. -/
def sinkHdr : List Char := "Sink #".data

/-- Header literal of `list_sources`. -/
def sourceHdr : List Char := "Source #".data

/-- Embeds `list_sinks` (lines 68-87) applied to the text of
`pactl list sinks`. -/
def list_sinks (output : List Char) : List DevRec :=
  devLoop sinkHdr {} (pySplitlines output)

/-- Embeds `list_sources` (lines 89-108) applied to the text of
`pactl list sources`. -/
def list_sources (output : List Char) : List DevRec :=
  devLoop sourceHdr {} (pySplitlines output)

/-- Embeds `get_default_sink` (lines 42-53): strip the `get-default-sink`
output; when it equals `pipewire` case-insensitively, fall back to the name
of the first parsed sink if any.  `defCmd` and `listCmd` are the outcomes of
the two external commands it runs.  The Python `sinks[0]['name']` access is
embedded with `getD` (records parsed from real `pactl` output carry `Name:`). -/
def get_default_sink (defCmd listCmd : CmdResult) : List Char :=
  if pyLower (pyStrip (run_pactl_command defCmd)) = "pipewire".data then
    match list_sinks (run_pactl_command listCmd) with
    | [] => pyStrip (run_pactl_command defCmd)
    | s :: _ => s.name.getD []
  else pyStrip (run_pactl_command defCmd)

/-- Embeds `get_default_source` (lines 55-66), symmetric to
`get_default_sink` over the source list. -/
def get_default_source (defCmd listCmd : CmdResult) : List Char :=
  if pyLower (pyStrip (run_pactl_command defCmd)) = "pipewire".data then
    match list_sources (run_pactl_command listCmd) with
    | [] => pyStrip (run_pactl_command defCmd)
    | s :: _ => s.name.getD []
  else pyStrip (run_pactl_command defCmd)

/-- Scanner for the regex `front-left:.*?(\d+)%` tail: looks, within the
current line (`.` does not match a newline), for a maximal digit run
immediately followed by `%`.  The first argument is `some acc` while inside a
digit run whose value so far is `acc`, and `none` while scanning. -/
def fnp : Option Nat → List Char → Option Nat
  | _, [] => none
  | some acc, c :: cs =>
    if c.isDigit then fnp (some (acc * 10 + (c.toNat - 48))) cs
    else if c = '%' then some acc
    else if c = '\n' then none
    else fnp none cs
  | none, c :: cs =>
    if c = '\n' then none
    else if c.isDigit then fnp (some (c.toNat - 48)) cs
    else fnp none cs

/-- Embeds `re.search(r'front-left:.*?(\d+)%', output)` (line 133): try every
occurrence of the literal `front-left:`; at each, the lazy gap and the
captured digits must lie on the same line; the captured group is returned as
a number. -/
def findFrontLeft : List Char → Option Nat
  | [] => none
  | c :: cs =>
    if List.isPrefixOf "front-left:".data (c :: cs) then
      match fnp none (List.drop 11 (c :: cs)) with
      | some v => some v
      | none => findFrontLeft cs
    else findFrontLeft cs

/-- Embeds `get_sink_volume_cmd` (lines 130-139): parse the front-left
percentage out of the `pactl get-sink-volume` output; on no match (including
a failed command, whose output is the empty string) return `0`. -/
def get_sink_volume_cmd (cmd : CmdResult) : Nat :=
  match findFrontLeft (run_pactl_command cmd) with
  | some v => v
  | none => 0

/-- State kept by the polling loop between ticks: the lists parsed on the
previous tick (`previous_sinks`, `previous_sources`). -/
structure Snapshot where
  sinks : List DevRec
  sources : List DevRec
deriving DecidableEq

/-- External command outcomes observed by one tick of the polling loop. -/
structure Tick where
  sinksCmd : CmdResult
  sourcesCmd : CmdResult
deriving DecidableEq

/-- One iteration of the `while True` body of `poll_audio_events`
(lines 904-918): re-list sinks and sources, compare by value with the
previous lists, and on any difference record the new lists and emit the
devices-changed notification (the Bool of the result). -/
def pollStep (prev : Snapshot) (t : Tick) : Bool × Snapshot :=
  if list_sinks (run_pactl_command t.sinksCmd) ≠ prev.sinks ∨
      list_sources (run_pactl_command t.sourcesCmd) ≠ prev.sources then
    (true, ⟨list_sinks (run_pactl_command t.sinksCmd),
            list_sources (run_pactl_command t.sourcesCmd)⟩)
  else (false, prev)

/-- The polling loop run over a finite schedule of ticks, returning for each
tick whether the devices-changed notification fired and the state after it. -/
def pollRun (prev : Snapshot) : List Tick → List (Bool × Snapshot)
  | [] => []
  | t :: ts => pollStep prev t :: pollRun (pollStep prev t).2 ts

/-- One entry of the BlueZ object tree (`GetManagedObjects`): its object path
and, when the entry carries the `org.bluez.Device1` interface, that device's
`Address` property. -/
structure BtEntry where
  path : List Char
  deviceAddress : Option (List Char)
deriving DecidableEq

/-- External results observed by one run of `PairWorker.pair`
(lines 1129-1180): the object tree, and the outcomes of the `Trusted` set,
`Pair`, the `Connect` inside the main try, and the `Connect` retried in the
`AlreadyExists` handler.  `none` is success, `some e` a `dbus.DBusException`
whose D-Bus error name (or text) is `e`. -/
structure PairEnv where
  objects : List BtEntry
  trusted_err : Option (List Char)
  pair_err : Option (List Char)
  connect_err : Option (List Char)
  connect_retry_err : Option (List Char)
deriving DecidableEq

/-- The D-Bus error name BlueZ reports for an already-paired device. -/
def alreadyExistsName : List Char := "org.bluez.Error.AlreadyExists".data

namespace PairWorker

/-- Embeds `PairWorker.pair` (lines 1129-1180): locate the device by address
in the object tree; if absent emit failure.  Set `Trusted` (failure only
logged).  Then `Pair` and `Connect` run in one `try`; a `DBusException` from
either reaches the handler: if its name is `org.bluez.Error.AlreadyExists`
the worker retries `Connect` and reports success exactly when that retry
succeeds, otherwise it reports the error.  The result is the
`pairingResult` signal payload `(success, message)`. -/
def pair (addr : List Char) (env : PairEnv) : Bool × List Char :=
  match env.objects.find? (fun e => e.deviceAddress = some addr) with
  | none => (false, "Device not found".data)
  | some _ =>
    match (match env.pair_err with
           | some e => some e
           | none => env.connect_err) with
    | none => (true, "Pairing and connection successful".data)
    | some e =>
      if e = alreadyExistsName then
        match env.connect_retry_err with
        | none => (true, "Device is already paired and connected".data)
        | some _ => (false, "Already paired, but failed to connect".data)
      else (false, e)

end PairWorker

/-- Abstract session states named by the specification for one pairing
session. -/
inductive SessionState where
  | Idle
  | Connecting
  | Pairing
  | SettingProfile
  | MatchingEndpoints
  | Done
  | Failed
deriving DecidableEq

/-- The canonical successful state chain of a pairing session. -/
def canonicalChain : List SessionState :=
  [.Idle, .Connecting, .Pairing, .SettingProfile, .MatchingEndpoints, .Done]

/-- External results observed by a whole pairing session: the worker's
environment plus the results of `get_recent_bluetooth_address` and
`get_card_for_device` used by `set_bluetooth_profile` (lines 703-796). -/
structure SessionEnv where
  pairEnv : PairEnv
  recent_address : Option (List Char)
  card_name : Option (List Char)
deriving DecidableEq

/-- Trace instrumentation of one pairing session, following the sequential
code path `pair_device` → `PairWorker.pair` → `pairing_finished` →
`set_bluetooth_profile`:  locating the device is the Connecting step (absent
device fails the session); `Pair`/`Connect` is the Pairing step (its reported
failure fails the session); on success `set_bluetooth_profile` runs after the
5s timer (SettingProfile): with no recent bluez address it returns early,
with no card it reports the card error (Failed), and otherwise it matches and
assigns endpoints (MatchingEndpoints) and runs to completion (Done) —
endpoint absence is not fatal there. -/
def sessionTrace (addr : List Char) (env : SessionEnv) : List SessionState :=
  .Idle :: .Connecting ::
    (match env.pairEnv.objects.find? (fun e => e.deviceAddress = some addr) with
     | none => [.Failed]
     | some _ =>
       .Pairing ::
         (if (PairWorker.pair addr env.pairEnv).1 then
            .SettingProfile ::
              (match env.recent_address with
               | none => []
               | some _ =>
                 match env.card_name with
                 | none => [.Failed]
                 | some _ => [.MatchingEndpoints, .Done])
          else [.Failed]))

/-- Outcome of a pairing request at the UI boundary.  The code reports no
Busy condition; the `busy` constructor exists so the specification's claim
about it can be stated. -/
inductive PairReqOutcome where
  | started
  | ignored
  | busy
deriving DecidableEq

/-- UI-visible pairing state of `VolumeController`: whether the Pair/Unpair
buttons accept clicks, and the in-flight `PairWorker` target if any. -/
structure PairUiState where
  pair_enabled : Bool
  unpair_enabled : Bool
  worker_addr : Option (List Char)
deriving DecidableEq

/-- Embeds `pair_device` (lines 678-689) together with the Qt fact that a
disabled button never delivers `clicked`: while a pairing is in flight both
buttons are disabled (set on launch, re-enabled only by `pairing_finished`),
so a second click is simply not delivered (`ignored`).  With the button
enabled and a device selected, the handler disables both buttons and starts
a `PairWorker` for the selected address; with no selection it does nothing. -/
def pair_device (st : PairUiState) (selected : Option (List Char)) :
    PairUiState × PairReqOutcome :=
  if st.pair_enabled = false then (st, .ignored)
  else
    match selected with
    | none => (st, .ignored)
    | some addr =>
      ({ pair_enabled := false, unpair_enabled := false, worker_addr := some addr },
       .started)

/-- One raw `PropertiesChanged` signal for `org.bluez.Device1`: its delivery
time in milliseconds and the keys of the `changed` dictionary. -/
structure PropSignal where
  time : Nat
  changedKeys : List (List Char)
deriving DecidableEq

/-- Embeds `device_property_changed` (lines 960-965): when the `changed`
dictionary carries the key `Connected`, schedule `refresh_all_devices` on a
fresh 3000 ms single-shot timer (result: the absolute firing time); other
signals schedule nothing. -/
def device_property_changed (s : PropSignal) : Option Nat :=
  if "Connected".data ∈ s.changedKeys then some (s.time + 3000) else none

/-- The refresh firing times produced by a finite sequence of raw signals:
each signal is handled independently by `device_property_changed`. -/
def scheduledRefreshes (sigs : List PropSignal) : List Nat :=
  sigs.filterMap device_property_changed

/-- The slice of `VolumeController` state that endpoint assignment mutates:
`self.default_sink` and `self.default_source`. -/
structure CtrlAudioState where
  default_sink : List Char
  default_source : List Char
deriving DecidableEq

/-- External results observed by `set_device_as_default_sink_and_source`:
the `get_card_for_device` result and the sink/source lists re-parsed after
the profile switch and the 2 s settle sleep. -/
structure MatchEnv where
  card_name : Option (List Char)
  sinks : List DevRec
  sources : List DevRec
deriving DecidableEq

/-- The sink-name pattern `'bluez_sink.' + address.replace(":", "_").lower()`
a matching sink must start with. -/
def sinkPat (addr : List Char) : List Char :=
  "bluez_sink.".data ++ pyLower (pyReplaceColon addr)

/-- The source-name pattern `'bluez_source.' + address.replace(":", "_").lower()`. -/
def sourcePat (addr : List Char) : List Char :=
  "bluez_source.".data ++ pyLower (pyReplaceColon addr)

/-- One Python matching loop
`for x in xs: if x['name'].startswith(pat): ... break` over parsed records:
the subscript `x['name']` on a record lacking the key raises `KeyError`
before the test runs, aborting the whole routine — embedded as `none`.
Otherwise the result is `some (some n)` for the first name starting with
`pat`, or `some none` when the loop finishes without a match. -/
def findMatchingName (pat : List Char) : List DevRec → Option (Option (List Char))
  | [] => some none
  | r :: rs =>
    match r.name with
    | none => none
    | some n =>
      if List.isPrefixOf pat n then some (some n)
      else findMatchingName pat rs

/-- Embeds `set_device_as_default_sink_and_source` (lines 973-1054): derive
the address pattern; return early (warning dialog, not completed) when no
card exists; otherwise switch the card profile, wait, rescan, and run the two
matching loops over the re-parsed sinks and sources.  A parsed record with no
`name` key makes the Python loop raise `KeyError`, which nothing in this
method catches, so the routine aborts — embedded as result `none`.  Otherwise
the first matching sink and/or source name is assigned as the default and the
method runs to completion (refresh, dialogs, final re-poll) whether or not
either endpoint matched; the Bool reports reaching the end of the method. -/
def set_device_as_default_sink_and_source (addr : List Char)
    (st : CtrlAudioState) (env : MatchEnv) : Option (CtrlAudioState × Bool) :=
  match env.card_name with
  | none => some (st, false)
  | some _ =>
    match findMatchingName (sinkPat addr) env.sinks with
    | none => none
    | some sink_name =>
      match findMatchingName (sourcePat addr) env.sources with
      | none => none
      | some source_name =>
        some (⟨sink_name.getD st.default_sink, source_name.getD st.default_source⟩, true)

/-- Modelled from the spec: the external mixer state consumed by the volume
operations — a total assignment of an integer percent volume to each sink
name (§6 "Mixer control surface"). -/
def Mixer := List Char → Nat

/-- Modelled from the spec: the mixer semantics of
`pactl set-sink-volume <sink> <v>%` — the named sink's volume becomes `v`,
all others are untouched. -/
def pactlSetSinkVolume (m : Mixer) (sink : List Char) (v : Nat) : Mixer :=
  fun s => if s = sink then v else m s

/-- Decimal digits of a number, for rendering mixer output. -/
def natToChars (n : Nat) : List Char := Nat.toDigits 10 n

/-- Modelled from the spec: the text `pactl get-sink-volume <sink>` prints —
a volume line matching the front-left percentage pattern (§6). -/
def pactlGetSinkVolumeOutput (m : Mixer) (sink : List Char) : List Char :=
  "Volume: front-left: ".data ++ natToChars (m sink) ++
    "% / front-right: ".data ++ natToChars (m sink) ++ "%".data

/-- Embeds `set_sink_volume_cmd` (lines 120-123): it issues exactly the
`set-sink-volume` mutation against the external mixer. -/
def set_sink_volume_cmd (m : Mixer) (sink : List Char) (v : Nat) : Mixer :=
  pactlSetSinkVolume m sink v

/-- Reading a sink's volume through the code's parser from the modelled
mixer: `get_sink_volume_cmd` applied to the rendered mixer output. -/
def readSinkVolume (m : Mixer) (sink : List Char) : Nat :=
  get_sink_volume_cmd (.ok (pactlGetSinkVolumeOutput m sink))

/-! Claim-shaped reference parser for C10 (a refinement claim): one record
per header line, in input order; the record's index comes from its header
line, its name and description are the last `Name:`/`Description:` values
seen before the next header. -/

/-- Last value of a field (selected by `p`, extracted by `f`) among a group
of lines. -/
def lastFieldVal (p : List Char → Bool) (f : List Char → List Char) :
    List (List Char) → Option (List Char)
  | [] => none
  | l :: ls =>
    match lastFieldVal p f ls with
    | some v => some v
    | none => if p (pyStrip l) then some (f (pyStrip l)) else none

/-- The record the claim assigns to a header line `t` with body `grp` (the
lines before the next header). -/
def specRecord (t : List Char) (grp : List (List Char)) : DevRec :=
  { index := some (headerIdx t),
    name := lastFieldVal isNameLine nameVal grp,
    description := lastFieldVal isDescLine descVal grp }

/-- Claim-shaped grouping pass: returns the records of all headers in the
line list (in order) and the group of lines before the first header. -/
def devGroups (hdr : List Char) : List (List Char) → List DevRec × List (List Char)
  | [] => ([], [])
  | l :: ls =>
    if isHeaderLine hdr (pyStrip l) then
      (specRecord (pyStrip l) (devGroups hdr ls).2 :: (devGroups hdr ls).1, [])
    else ((devGroups hdr ls).1, l :: (devGroups hdr ls).2)

/-- The claim-shaped parse: exactly one record per header, in input order. -/
def devSpec (hdr : List Char) (lines : List (List Char)) : List DevRec :=
  (devGroups hdr lines).1

/-- Hypothesis of C10: every `Name:`/`Description:` line occurs after some
header line, i.e. the region before the first header has neither. -/
def fieldsAfterHeader (hdr : List Char) (lines : List (List Char)) : Prop :=
  ∀ l ∈ lines.takeWhile (fun x => !(isHeaderLine hdr (pyStrip x))),
    isNameLine (pyStrip l) = false ∧ isDescLine (pyStrip l) = false

instance (hdr : List Char) (lines : List (List Char)) :
    Decidable (fieldsAfterHeader hdr lines) := by
  unfold fieldsAfterHeader; exact inferInstance

/-- The effect of one non-header line on the record under construction (the
three non-header branches of `devLoop`). -/
def groupStep (cur : DevRec) (t : List Char) : DevRec :=
  if isNameLine t then { cur with name := some (nameVal t) }
  else if isDescLine t then { cur with description := some (descVal t) }
  else cur

/-- Folding a group of lines into the record under construction. -/
def updGroup (cur : DevRec) : List (List Char) → DevRec
  | [] => cur
  | l :: ls => updGroup (groupStep cur (pyStrip l)) ls


/-! Sample concrete inputs used by the witnesses below (each sample is used
by a single claim's witness). -/

/-- Sample address used by the C1 witness. -/
def c1Addr : List Char := "AA:BB:CC:DD:EE:FF".data

/-- Sample matched sink record used by the C1 witness. -/
def c1Sink : DevRec :=
  ⟨some "57".data, some "bluez_sink.aa_bb_cc_dd_ee_ff.a2dp-sink".data, none⟩

/-- Sample post-profile-switch environment used by the C1 witness. -/
def c1Env : MatchEnv := ⟨some "bluez_card.aa_bb_cc_dd_ee_ff".data, [c1Sink], []⟩

/-- Sample controller state used by the C1 witness. -/
def c1St : CtrlAudioState := ⟨"alsa_output.pci".data, "alsa_input.pci".data⟩

/-- Sample tick whose two external commands both fail, used by the C2 witness. -/
def c2Tick : Tick := ⟨.err "connection refused".data, .err "connection refused".data⟩

/-- Sample worker environment where Pair reports AlreadyExists and the
retried Connect succeeds, used by the C3 witness. -/
def c3Env : PairEnv :=
  ⟨[⟨"/org/bluez/hci0/dev_AA".data, some "AA:BB:CC:DD:EE:FF".data⟩],
   none, some alreadyExistsName, none, none⟩



lemma DevRec.eqOfFields (a b : DevRec) (h1 : a.index = b.index)
    (h2 : a.name = b.name) (h3 : a.description = b.description) : a = b := by
  cases a; cases b; simp_all

lemma not_name_and_desc (t : List Char) :
    ¬(isNameLine t = true ∧ isDescLine t = true) := by
  rintro ⟨hn, hd⟩
  unfold isNameLine at hn
  unfold isDescLine at hd
  rw [show "Name:".data = 'N' :: "ame:".data from rfl] at hn
  rw [show "Description:".data = 'D' :: "escription:".data from rfl] at hd
  cases t with
  | nil => simp [List.isPrefixOf] at hn
  | cons c cs =>
    simp [List.isPrefixOf] at hn hd
    obtain ⟨rfl, -⟩ := hn
    simp at hd

lemma groupStep_index (cur : DevRec) (t : List Char) :
    (groupStep cur t).index = cur.index := by
  unfold groupStep; split_ifs <;> rfl

lemma groupStep_nonEmpty (cur : DevRec) (t : List Char) (h : cur.nonEmpty = true) :
    (groupStep cur t).nonEmpty = true := by
  unfold groupStep; split_ifs <;> simp_all [DevRec.nonEmpty]

lemma updGroup_index (g : List (List Char)) : ∀ cur : DevRec,
    (updGroup cur g).index = cur.index := by
  induction g with
  | nil => intro cur; rfl
  | cons l ls ih => intro cur; rw [updGroup, ih, groupStep_index]

lemma updGroup_name (g : List (List Char)) : ∀ cur : DevRec,
    (updGroup cur g).name =
      match lastFieldVal isNameLine nameVal g with
      | some v => some v
      | none => cur.name := by
  induction g with
  | nil => intro cur; rfl
  | cons l ls ih =>
    intro cur
    rw [updGroup, ih]
    cases hl : lastFieldVal isNameLine nameVal ls with
    | some v => simp [lastFieldVal, hl]
    | none =>
      simp only [lastFieldVal, hl]
      unfold groupStep
      split_ifs <;> simp

lemma updGroup_description (g : List (List Char)) : ∀ cur : DevRec,
    (updGroup cur g).description =
      match lastFieldVal isDescLine descVal g with
      | some v => some v
      | none => cur.description := by
  induction g with
  | nil => intro cur; rfl
  | cons l ls ih =>
    intro cur
    rw [updGroup, ih]
    cases hl : lastFieldVal isDescLine descVal ls with
    | some v => simp [lastFieldVal, hl]
    | none =>
      simp only [lastFieldVal, hl]
      by_cases h1 : isNameLine (pyStrip l) = true
      · have h2 : isDescLine (pyStrip l) = false := by
          rcases Bool.eq_false_or_eq_true (isDescLine (pyStrip l)) with h | h
          · exact absurd ⟨h1, h⟩ (not_name_and_desc _)
          · exact h
        simp [groupStep, h1, h2]
      · by_cases h2 : isDescLine (pyStrip l) = true
        · simp [groupStep, h1, h2]
        · simp [groupStep, h1, h2]

lemma updGroup_spec (t : List Char) (g : List (List Char)) :
    updGroup { index := some (headerIdx t) } g = specRecord t g := by
  apply DevRec.eqOfFields
  · rw [updGroup_index]; rfl
  · rw [updGroup_name]
    cases h : lastFieldVal isNameLine nameVal g <;> simp [specRecord, h]
  · rw [updGroup_description]
    cases h : lastFieldVal isDescLine descVal g <;> simp [specRecord, h]

lemma devLoop_eq_aux (hdr : List Char) (lines : List (List Char)) :
    ∀ cur : DevRec, cur.nonEmpty = true →
      devLoop hdr cur lines =
        updGroup cur (devGroups hdr lines).2 :: (devGroups hdr lines).1 := by
  induction lines with
  | nil => intro cur h; simp [devLoop, devGroups, updGroup, h]
  | cons l ls ih =>
    intro cur h
    by_cases hh : isHeaderLine hdr (pyStrip l) = true
    · rw [show devGroups hdr (l :: ls) =
          (specRecord (pyStrip l) (devGroups hdr ls).2 :: (devGroups hdr ls).1, []) from by
        simp [devGroups, hh]]
      simp only [devLoop, hh, if_true, h, updGroup]
      rw [ih _ (by simp [DevRec.nonEmpty]), updGroup_spec]
    · rw [show devGroups hdr (l :: ls) =
          ((devGroups hdr ls).1, l :: (devGroups hdr ls).2) from by
        simp [devGroups, hh]]
      rw [show updGroup cur (l :: (devGroups hdr ls).2) =
          updGroup (groupStep cur (pyStrip l)) (devGroups hdr ls).2 from rfl]
      rw [← ih (groupStep cur (pyStrip l)) (groupStep_nonEmpty _ _ h)]
      unfold groupStep
      by_cases hn : isNameLine (pyStrip l) = true
      · simp [devLoop, hh, hn]
      · by_cases hd : isDescLine (pyStrip l) = true
        · simp [devLoop, hh, hn, hd]
        · simp [devLoop, hh, hn, hd]

lemma devLoop_spec (hdr : List Char) (lines : List (List Char))
    (hF : fieldsAfterHeader hdr lines) :
    devLoop hdr {} lines = devSpec hdr lines := by
  induction lines with
  | nil => rfl
  | cons l ls ih =>
    by_cases hh : isHeaderLine hdr (pyStrip l) = true
    · have hempty : ({} : DevRec).nonEmpty = false := rfl
      simp only [devLoop, hh, if_true, hempty, Bool.false_eq_true, if_false]
      rw [devLoop_eq_aux hdr ls _ (by simp [DevRec.nonEmpty]), updGroup_spec]
      simp [devSpec, devGroups, hh]
    · have hh' : isHeaderLine hdr (pyStrip l) = false := by
        simpa using hh
      have hl := hF l (by simp [List.takeWhile_cons, hh'])
      obtain ⟨hn, hd⟩ := hl
      have hF' : fieldsAfterHeader hdr ls := by
        intro x hx
        exact hF x (by simp [List.takeWhile_cons, hh']; exact Or.inr hx)
      simp [devLoop, devSpec, devGroups, hh', hn, hd, ih hF']



lemma findMatchingName_total (pat : List Char) (rs : List DevRec)
    (h : ∀ r ∈ rs, r.name.isSome = true) :
    ∃ o, findMatchingName pat rs = some o := by
  induction rs with
  | nil => exact ⟨none, rfl⟩
  | cons r rs ih =>
    obtain ⟨n, hn⟩ := Option.isSome_iff_exists.mp (h r (by simp))
    by_cases hp : List.isPrefixOf pat n = true
    · exact ⟨some n, by simp [findMatchingName, hn, hp]⟩
    · obtain ⟨o, ho⟩ := ih (fun x hx => h x (by simp [hx]))
      exact ⟨o, by simp [findMatchingName, hn, hp, ho]⟩

lemma findMatchingName_none (pat : List Char) (rs : List DevRec)
    (htot : ∀ r ∈ rs, r.name.isSome = true)
    (h : ∀ r ∈ rs, ∀ n, r.name = some n → List.isPrefixOf pat n = false) :
    findMatchingName pat rs = some none := by
  induction rs with
  | nil => rfl
  | cons r rs ih =>
    obtain ⟨n, hn⟩ := Option.isSome_iff_exists.mp (htot r (by simp))
    have hp := h r (by simp) n hn
    have hstep : findMatchingName pat (r :: rs) = findMatchingName pat rs := by
      simp [findMatchingName, hn, hp]
    rw [hstep]
    exact ih (fun x hx => htot x (by simp [hx])) (fun x hx => h x (by simp [hx]))

lemma findMatchingName_found (pat : List Char) (rs : List DevRec)
    (htot : ∀ r ∈ rs, r.name.isSome = true)
    (h : ∃ r ∈ rs, ∃ n, r.name = some n ∧ List.isPrefixOf pat n = true) :
    ∃ r ∈ rs, ∃ n, r.name = some n ∧ List.isPrefixOf pat n = true ∧
      findMatchingName pat rs = some (some n) := by
  induction rs with
  | nil =>
    obtain ⟨r, hr, -⟩ := h
    exact absurd hr (List.not_mem_nil r)
  | cons r rs ih =>
    obtain ⟨n0, hn0⟩ := Option.isSome_iff_exists.mp (htot r (by simp))
    by_cases hp : List.isPrefixOf pat n0 = true
    · exact ⟨r, by simp, n0, hn0, hp, by simp [findMatchingName, hn0, hp]⟩
    · have hrec : ∃ x ∈ rs, ∃ n, x.name = some n ∧ List.isPrefixOf pat n = true := by
        obtain ⟨x, hx, n, hxn, hxp⟩ := h
        rcases List.mem_cons.mp hx with rfl | hx'
        · rw [hn0] at hxn
          injection hxn with e
          subst e
          exact absurd hxp hp
        · exact ⟨x, hx', n, hxn, hxp⟩
      obtain ⟨x, hx, n, hxn, hxp, hres⟩ :=
        ih (fun y hy => htot y (by simp [hy])) hrec
      refine ⟨x, by simp [hx], n, hxn, hxp, ?_⟩
      simp [findMatchingName, hn0, hp, hres]

/-! Claim theorems. -/

/-- C10: for every mixer text output in which every `Name:` and
`Description:` line occurs after some `Sink #` header line, `list_sinks`
returns exactly one record per `Sink #` header, in input order, with the
index taken from the header line and the name/description the last
`Name:`/`Description:` values seen before the next header (this is what
`devSpec` computes by construction); the empty output yields the empty
list; the same holds for `list_sources` over `Source #` headers. -/
theorem c10_parser_shape :
    (∀ out, fieldsAfterHeader sinkHdr (pySplitlines out) →
        list_sinks out = devSpec sinkHdr (pySplitlines out)) ∧
    list_sinks [] = [] ∧
    (∀ out, fieldsAfterHeader sourceHdr (pySplitlines out) →
        list_sources out = devSpec sourceHdr (pySplitlines out)) ∧
    list_sources [] = [] :=
  ⟨fun _ h => devLoop_spec _ _ h, rfl, fun _ h => devLoop_spec _ _ h, rfl⟩

/-- Witness for C10 at a concrete two-sink output. -/
theorem c10_witness :
    fieldsAfterHeader sinkHdr
      (pySplitlines "Sink #0\n\tName: s0\n\tDescription: d0\nSink #1\n\tName: s1\n".data) ∧
    list_sinks "Sink #0\n\tName: s0\n\tDescription: d0\nSink #1\n\tName: s1\n".data =
      devSpec sinkHdr
        (pySplitlines "Sink #0\n\tName: s0\n\tDescription: d0\nSink #1\n\tName: s1\n".data) :=
  ⟨by decide, c10_parser_shape.1 _ (by decide)⟩

/-- C9: when the stripped `get-default-sink` output equals `pipewire`
case-insensitively, `get_default_sink` returns the name of the first parsed
sink if the sink list is non-empty, and the stripped output unchanged if the
sink list is empty; symmetrically for `get_default_source` over the source
list. -/
theorem c9_default_fallback :
    (∀ dc lc, pyLower (pyStrip (run_pactl_command dc)) = "pipewire".data →
       (list_sinks (run_pactl_command lc) = [] →
           get_default_sink dc lc = pyStrip (run_pactl_command dc)) ∧
       (∀ s ss n, list_sinks (run_pactl_command lc) = s :: ss → s.name = some n →
           get_default_sink dc lc = n)) ∧
    (∀ dc lc, pyLower (pyStrip (run_pactl_command dc)) = "pipewire".data →
       (list_sources (run_pactl_command lc) = [] →
           get_default_source dc lc = pyStrip (run_pactl_command dc)) ∧
       (∀ s ss n, list_sources (run_pactl_command lc) = s :: ss → s.name = some n →
           get_default_source dc lc = n)) := by
  constructor
  · intro dc lc h
    constructor
    · intro hnil; simp [get_default_sink, h, hnil]
    · intro s ss n hcons hn; simp [get_default_sink, h, hcons, hn]
  · intro dc lc h
    constructor
    · intro hnil; simp [get_default_source, h, hnil]
    · intro s ss n hcons hn; simp [get_default_source, h, hcons, hn]

/-- Witness for C9 at a concrete `PipeWire` answer, with a one-sink list and
with an empty list. -/
theorem c9_witness :
    pyLower (pyStrip (run_pactl_command (.ok " PipeWire \n".data))) = "pipewire".data ∧
    get_default_sink (.ok " PipeWire \n".data) (.ok "Sink #0\nName: mysink".data) =
      "mysink".data ∧
    get_default_sink (.ok " PipeWire \n".data) (.err []) = "PipeWire".data := by
  refine ⟨by decide, ?_, ?_⟩
  · exact (c9_default_fallback.1 _ _ (by decide)).2
      ⟨some "0".data, some "mysink".data, none⟩ [] "mysink".data (by decide) rfl
  · have h := (c9_default_fallback.1 (.ok " PipeWire \n".data) (.err []) (by decide)).1 rfl
    rw [show pyStrip (run_pactl_command (.ok " PipeWire \n".data)) = "PipeWire".data
      from by decide] at h
    exact h

/-- C8: round trip through the modelled mixer — setting a sink's volume to
42 with `set_sink_volume_cmd` and immediately reading it back through
`get_sink_volume_cmd` on the rendered `get-sink-volume` output returns 42
(no other mixer mutation happens between the two calls). -/
theorem c8_volume_round_trip (m : Mixer) (sink : List Char) :
    readSinkVolume (set_sink_volume_cmd m sink 42) sink = 42 := by
  have h : set_sink_volume_cmd m sink 42 sink = 42 := by
    simp [set_sink_volume_cmd, pactlSetSinkVolume]
  unfold readSinkVolume pactlGetSinkVolumeOutput
  rw [h]
  decide

/-- C7: a failed external command is recovered locally — `run_pactl_command`
returns the empty string on a non-zero exit, the list parsers then return
empty lists, `get_sink_volume_cmd` returns 0 on unparsable output, and the
polling loop is total: it processes every tick of any schedule, so any
number of consecutive failed queries never stops it. -/
theorem c7_failure_recovery :
    (∀ e, run_pactl_command (.err e) = []) ∧
    (∀ e, list_sinks (run_pactl_command (.err e)) = [] ∧
          list_sources (run_pactl_command (.err e)) = []) ∧
    (∀ r, findFrontLeft (run_pactl_command r) = none → get_sink_volume_cmd r = 0) ∧
    (∀ prev ts, (pollRun prev ts).length = ts.length) := by
  refine ⟨fun e => rfl, fun e => ⟨rfl, rfl⟩, fun r h => ?_, fun prev ts => ?_⟩
  · simp [get_sink_volume_cmd, h]
  · induction ts generalizing prev with
    | nil => rfl
    | cons t ts ih => simp [pollRun, ih]

/-- Witness for C7 at a concrete failing command. -/
theorem c7_witness :
    get_sink_volume_cmd (.err "pactl failed".data) = 0 :=
  c7_failure_recovery.2.2.1 _ rfl


/-- C1: after a profile switch with the device's card present and every
parsed sink/source record carrying a name (the domain on which the Python
subscript `sink['name']` does not raise `KeyError`), if the re-polled sink
list contains a sink whose name starts with `bluez_sink.` + the address
lowercased with `:` replaced by `_`, a matching sink's name becomes the new
default sink; if no sink matches, the default sink is unchanged — and in
both cases the routine runs to completion (partial success) rather than
failing. -/
theorem c1_endpoint_matching (addr : List Char) (st : CtrlAudioState) (env : MatchEnv)
    (hc : env.card_name.isSome = true)
    (hsk : ∀ r ∈ env.sinks, r.name.isSome = true)
    (hsr : ∀ r ∈ env.sources, r.name.isSome = true) :
    ((∃ r ∈ env.sinks, ∃ n, r.name = some n ∧
        List.isPrefixOf (sinkPat addr) n = true) →
       ∃ r ∈ env.sinks, ∃ n, r.name = some n ∧
         List.isPrefixOf (sinkPat addr) n = true ∧
         ∃ res, set_device_as_default_sink_and_source addr st env = some res ∧
           res.1.default_sink = n ∧ res.2 = true) ∧
    ((∀ r ∈ env.sinks, ∀ n, r.name = some n →
        List.isPrefixOf (sinkPat addr) n = false) →
       ∃ res, set_device_as_default_sink_and_source addr st env = some res ∧
         res.1.default_sink = st.default_sink ∧ res.2 = true) := by
  obtain ⟨card, hcard⟩ := Option.isSome_iff_exists.mp hc
  obtain ⟨osrc, hosrc⟩ := findMatchingName_total (sourcePat addr) env.sources hsr
  constructor
  · intro hex
    obtain ⟨r, hr, n, hn, hp, hres⟩ :=
      findMatchingName_found (sinkPat addr) env.sinks hsk hex
    refine ⟨r, hr, n, hn, hp, ?_⟩
    refine ⟨⟨⟨n, osrc.getD st.default_source⟩, true⟩, ?_, rfl, rfl⟩
    simp [set_device_as_default_sink_and_source, hcard, hres, hosrc]
  · intro hall
    have hres := findMatchingName_none (sinkPat addr) env.sinks hsk hall
    refine ⟨⟨⟨st.default_sink, osrc.getD st.default_source⟩, true⟩, ?_, rfl, rfl⟩
    simp [set_device_as_default_sink_and_source, hcard, hres, hosrc]

/-- Witness for C1 at a concrete address and one matching (named) sink. -/
theorem c1_witness :
    c1Env.card_name.isSome = true ∧
    (∃ r ∈ c1Env.sinks, ∃ n, r.name = some n ∧
       List.isPrefixOf (sinkPat c1Addr) n = true ∧
       ∃ res, set_device_as_default_sink_and_source c1Addr c1St c1Env = some res ∧
         res.1.default_sink = n ∧ res.2 = true) :=
  ⟨by decide,
   (c1_endpoint_matching c1Addr c1St c1Env (by decide) (by decide) (by decide)).1
     ⟨c1Sink, by decide, "bluez_sink.aa_bb_cc_dd_ee_ff.a2dp-sink".data,
      by decide, by decide⟩⟩

/-- C2: one tick of the polling loop emits no devices-changed notification
exactly when the freshly parsed sink and source lists are both structurally
equal to the previous tick's lists; when a notification is emitted the
stored lists are replaced by the current ones, otherwise the state is
unchanged, and the loop just continues on the rest of the schedule. -/
theorem c2_poll_no_change_no_notify (prev : Snapshot) (t : Tick) :
    ((pollStep prev t).1 = false ↔
      (list_sinks (run_pactl_command t.sinksCmd) = prev.sinks ∧
       list_sources (run_pactl_command t.sourcesCmd) = prev.sources)) ∧
    ((pollStep prev t).1 = true →
      (pollStep prev t).2 = ⟨list_sinks (run_pactl_command t.sinksCmd),
                             list_sources (run_pactl_command t.sourcesCmd)⟩) ∧
    ((pollStep prev t).1 = false → (pollStep prev t).2 = prev) ∧
    (∀ ts, list_sinks (run_pactl_command t.sinksCmd) = prev.sinks →
      list_sources (run_pactl_command t.sourcesCmd) = prev.sources →
      pollRun prev (t :: ts) = (false, prev) :: pollRun prev ts) := by
  by_cases h : list_sinks (run_pactl_command t.sinksCmd) ≠ prev.sinks ∨
      list_sources (run_pactl_command t.sourcesCmd) ≠ prev.sources
  · have hstep : pollStep prev t =
        (true, ⟨list_sinks (run_pactl_command t.sinksCmd),
                list_sources (run_pactl_command t.sourcesCmd)⟩) := by
      simp only [pollStep]; rw [if_pos h]
    refine ⟨?_, ?_, ?_, ?_⟩
    · rw [hstep]
      constructor
      · intro hx; simp at hx
      · rintro ⟨h1, h2⟩
        rcases h with h | h
        · exact absurd h1 h
        · exact absurd h2 h
    · intro _; rw [hstep]
    · intro hx; rw [hstep] at hx; simp at hx
    · intro ts h1 h2
      rcases h with h | h
      · exact absurd h1 h
      · exact absurd h2 h
  · push_neg at h
    obtain ⟨h1, h2⟩ := h
    have hstep : pollStep prev t = (false, prev) := by
      simp only [pollStep]
      rw [if_neg]
      simp [h1, h2]
    refine ⟨?_, ?_, ?_, ?_⟩
    · rw [hstep]; simp [h1, h2]
    · intro hx; rw [hstep] at hx; simp at hx
    · intro _; rw [hstep]
    · intro ts _ _
      simp only [pollRun, hstep]

/-- Witness for C2 at a concrete unchanged tick (both queries fail, and the
previous lists are empty). -/
theorem c2_witness :
    (pollStep ⟨[], []⟩ c2Tick).1 = false ∧
    (pollStep ⟨[], []⟩ c2Tick).2 = ⟨[], []⟩ ∧
    pollRun ⟨[], []⟩ [c2Tick] = [(false, ⟨[], []⟩)] := by
  refine ⟨?_, ?_, ?_⟩
  · exact (c2_poll_no_change_no_notify ⟨[], []⟩ c2Tick).1.mpr ⟨rfl, rfl⟩
  · exact (c2_poll_no_change_no_notify ⟨[], []⟩ c2Tick).2.2.1
      ((c2_poll_no_change_no_notify ⟨[], []⟩ c2Tick).1.mpr ⟨rfl, rfl⟩)
  · have h := (c2_poll_no_change_no_notify ⟨[], []⟩ c2Tick).2.2.2 [] rfl rfl
    simpa [pollRun] using h

/-- C3: when the device is present and `Pair` raises
`org.bluez.Error.AlreadyExists`, the worker retries `Connect` without
reporting the Pair error: the reported result is success exactly when that
`Connect` succeeds, and on success the message is the already-paired one. -/
theorem c3_already_exists_connect (addr : List Char) (env : PairEnv)
    (hdev : (env.objects.find? (fun e => e.deviceAddress = some addr)).isSome = true)
    (hpair : env.pair_err = some alreadyExistsName) :
    ((PairWorker.pair addr env).1 = true ↔ env.connect_retry_err = none) ∧
    (env.connect_retry_err = none →
       PairWorker.pair addr env =
         (true, "Device is already paired and connected".data)) := by
  obtain ⟨ent, hf⟩ := Option.isSome_iff_exists.mp hdev
  cases hr : env.connect_retry_err with
  | none => simp [PairWorker.pair, hf, hpair, hr]
  | some e => simp [PairWorker.pair, hf, hpair, hr]

/-- Witness for C3 at a concrete worker environment. -/
theorem c3_witness :
    ((c3Env.objects.find?
        (fun e => e.deviceAddress = some "AA:BB:CC:DD:EE:FF".data)).isSome = true) ∧
    ((PairWorker.pair "AA:BB:CC:DD:EE:FF".data c3Env).1 = true ↔
       c3Env.connect_retry_err = none) :=
  ⟨by decide,
   (c3_already_exists_connect "AA:BB:CC:DD:EE:FF".data c3Env (by decide) (by decide)).1⟩

/-- C4 counterexample: with a pairing in flight (buttons disabled, a worker
running), a second pairing request for a different address produces the
outcome `ignored` — the state is untouched, but no Busy error is reported,
contradicting the claim that such a request is rejected with Busy. -/
theorem c4_counterexample :
    pair_device ⟨false, false, some "AA:BB:CC:DD:EE:FF".data⟩
        (some "11:22:33:44:55:66".data) =
      (⟨false, false, some "AA:BB:CC:DD:EE:FF".data⟩, PairReqOutcome.ignored) ∧
    PairReqOutcome.ignored ≠ PairReqOutcome.busy :=
  ⟨rfl, by decide⟩

/-- C4 (amended): while a pairing worker is in flight the Pair button is
disabled, so any second pairing request is silently dropped: the UI state —
in particular the in-flight worker — is not mutated, and no outcome (no Busy
error) is reported; sessions are therefore never interleaved through this
handler, but no Busy error exists in the code. -/
theorem c4_busy_amended (st : PairUiState) (sel : Option (List Char))
    (h : st.pair_enabled = false) :
    pair_device st sel = (st, PairReqOutcome.ignored) := by
  simp [pair_device, h]

/-- Witness for the amended C4 at a concrete in-flight state. -/
theorem c4_witness :
    (⟨false, false, some "AA:BB:CC:DD:EE:FF".data⟩ : PairUiState).pair_enabled = false ∧
    pair_device ⟨false, false, some "AA:BB:CC:DD:EE:FF".data⟩ (some "00:11:22:33:44:55".data) =
      (⟨false, false, some "AA:BB:CC:DD:EE:FF".data⟩, PairReqOutcome.ignored) :=
  ⟨rfl, c4_busy_amended _ _ rfl⟩

/-- C5 counterexample: two raw Connected signals 1000 ms apart — well inside
one 3000 ms settle window — schedule two refreshes, not one: the handler
starts a fresh single-shot timer per signal instead of debouncing. -/
theorem c5_counterexample :
    scheduledRefreshes [⟨0, ["Connected".data]⟩, ⟨1000, ["Connected".data]⟩] =
      [3000, 4000] ∧
    (scheduledRefreshes [⟨0, ["Connected".data]⟩, ⟨1000, ["Connected".data]⟩]).length ≠ 1 ∧
    1000 < 3000 := by
  decide

/-- C5 (amended): the bridge delays each refresh by 3000 ms after its raw
Connected signal, but it does not coalesce: every Connected signal schedules
its own refresh, so n signals inside one settle window produce n refreshes. -/
theorem c5_settle_amended :
    (∀ s : PropSignal, "Connected".data ∈ s.changedKeys →
        device_property_changed s = some (s.time + 3000)) ∧
    (∀ sigs, scheduledRefreshes sigs =
        (sigs.filter (fun s => decide ("Connected".data ∈ s.changedKeys))).map
          (fun s => s.time + 3000)) := by
  constructor
  · intro s h; simp [device_property_changed, h]
  · intro sigs
    induction sigs with
    | nil => rfl
    | cons s ss ih =>
      by_cases h : "Connected".data ∈ s.changedKeys
      · simp [scheduledRefreshes, List.filterMap_cons, List.filter_cons,
          device_property_changed, h] at ih ⊢
        exact ih
      · simp [scheduledRefreshes, List.filterMap_cons, List.filter_cons,
          device_property_changed, h] at ih ⊢
        exact ih

/-- Witness for the amended C5 at a concrete signal. -/
theorem c5_witness :
    device_property_changed ⟨5, ["Connected".data]⟩ = some 3005 :=
  c5_settle_amended.1 _ (by decide)

/-- C6: every pairing session trace is a sublist of the canonical chain
Idle, Connecting, Pairing, SettingProfile, MatchingEndpoints, Done —
optionally terminated by Failed — and always passes through Connecting; the
trace is produced by the strictly sequential code path, so no step begins
before the prior completes. -/
theorem c6_state_sequence (addr : List Char) (env : SessionEnv) :
    ∃ pre, List.Sublist pre canonicalChain ∧
      (sessionTrace addr env = pre ∨ sessionTrace addr env = pre ++ [SessionState.Failed]) ∧
      SessionState.Connecting ∈ sessionTrace addr env := by
  unfold sessionTrace
  cases hf : env.pairEnv.objects.find? (fun e => e.deviceAddress = some addr) with
  | none =>
    exact ⟨[.Idle, .Connecting], by decide, Or.inr rfl,
      List.mem_cons_of_mem _ (List.mem_cons_self _ _)⟩
  | some ent =>
    cases hp : (PairWorker.pair addr env.pairEnv).1 with
    | false =>
      exact ⟨[.Idle, .Connecting, .Pairing], by decide, Or.inr rfl,
        List.mem_cons_of_mem _ (List.mem_cons_self _ _)⟩
    | true =>
      cases hr : env.recent_address with
      | none =>
        exact ⟨[.Idle, .Connecting, .Pairing, .SettingProfile], by decide,
          Or.inl rfl, List.mem_cons_of_mem _ (List.mem_cons_self _ _)⟩
      | some a =>
        cases hcard : env.card_name with
        | none =>
          exact ⟨[.Idle, .Connecting, .Pairing, .SettingProfile], by decide,
            Or.inr rfl, List.mem_cons_of_mem _ (List.mem_cons_self _ _)⟩
        | some c =>
          exact ⟨canonicalChain, by decide, Or.inl rfl,
            List.mem_cons_of_mem _ (List.mem_cons_self _ _)⟩


end BluePulse
